import Mathlib

/-!
Verification of the format-resolution and rendering pipeline of the
`kubectl get` command (repository juanvallejo/kubernetes).

The definitions below are a shallow embedding of the Go sources:
  - `GetStandardPrinter` and the `*PrintFlags.ToPrinter` builders
    (src/unnamed/part_001, src/unnamed/part_003, src/pkg/printers/json_yaml_flags.go);
  - the one-shot print session loop of `GetOptions.Run` and the error
    aggregation of `printGeneric` (src/pkg/kubectl/cmd/resource/get.go);
  - the watch loop of `GetOptions.watch` together with
    `attemptToConvertToInternal` (src/pkg/kubectl/cmd/resource/get.go).

External collaborators (the filesystem, the Go template / JSONPath
compilers, the custom-columns parser, the REST fetch layer and the
printers themselves) are taken as parameters, exactly as the spec
declares them out of scope.  Go strings are ASCII in every relevant
code path, so byte indexing coincides with character indexing.
-/

namespace KubectlGet

/-! ## String helpers

Small structurally-recursive versions of the Go string operations used
by the sources (`strings.HasPrefix`, slicing, `strings.ToLower`,
`len`), defined over the character list so that concrete instances
reduce inside the kernel. -/

def listIsPre : List Char → List Char → Bool
  | [], _ => true
  | _ :: _, [] => false
  | a :: as, b :: bs => a == b && listIsPre as bs

/-- Embeds Go `strings.HasPrefix s p`. -/
def strStartsWith (s p : String) : Bool :=
  listIsPre p.data s.data

/-- Embeds the Go slice `s[n:]` (ASCII strings only). -/
def strDrop (s : String) (n : Nat) : String :=
  ⟨s.data.drop n⟩

/-- Embeds the Go slice `s[:n]` (ASCII strings only). -/
def strTake (s : String) (n : Nat) : String :=
  ⟨s.data.take n⟩

/-- Embeds Go `len s` (ASCII strings only). -/
def strLen (s : String) : Nat :=
  s.data.length

/-- Embeds Go `strings.ToLower` (ASCII strings only). -/
def strToLower (s : String) : String :=
  ⟨s.data.map Char.toLower⟩

/-! ## Data model of printer resolution

`ResolvedPrinter` is the tagged union of the renderer variants that the
embedded builders can construct; each constructor records the data the
Go constructor call captures.  `PrintersErr` distinguishes the error
values produced by the resolution code. -/

structure PrintOptions where
  outputFormatType : String
  outputFormatArgument : String
  allowMissingKeys : Bool
  noHeaders : Bool
  wide : Bool
deriving Repr, DecidableEq

inductive ResolvedPrinter where
  | jsonPrinter
  | yamlPrinter
  | namePrinter
  | goTemplate (tpl : String) (allowMissingKeys : Bool)
  | jsonPath (tpl : String) (allowMissingKeys : Bool)
  | customColumns (spec : String) (noHeaders : Bool)
  | customColumnsFromTemplate (content : String)
  | humanReadable (opts : PrintOptions)
deriving Repr, DecidableEq

inductive PrintersErr where
  | noPrinterMatched
  | notRecognized (format : String)
  | noTemplateFileGiven (format : String)
  | templateReadError (arg : String)
  | constructionError (msg : String)
  | missingOutputFormat
  | missingTemplateValue
  | missingTemplateArgument
  | customColumnsError (msg : String)
  | noPrintersMatchedFlags
  | nilPrinter
deriving Repr, DecidableEq

/-- Mirrors the Go triple `(ResourcePrinter, bool, error)` returned by
every `ToPrinter` builder, in the same field order. -/
structure ToPrinterResult where
  printer : Option ResolvedPrinter
  matched : Bool
  err : Option PrintersErr
deriving Repr

/-- External collaborators of printer resolution: `ioutil.ReadFile` /
`os.Open`, and the construction (compilation) steps of the template,
JSONPath and custom-columns printers, which live outside this
repository slice. -/
structure ResolveEnv where
  readFile : String → Except String String
  newGoTemplatePrinter : String → Except String Unit
  newJSONPathPrinter : String → Except String Unit
  newCustomColumnsFromSpec : String → Bool → Except String Unit
  newCustomColumnsFromFile : String → Except String Unit

/-! ## The builders embedded from the sources -/

/-- Embeds `JSONYamlPrintFlags.ToPrinter`
(src/pkg/printers/json_yaml_flags.go, lines 35-50). -/
def jsonYamlToPrinter (outputFormat : String) : ToPrinterResult :=
  if strLen outputFormat = 0 then ⟨none, false, some .missingOutputFormat⟩
  else
    let o := strToLower outputFormat
    if o ≠ "json" ∧ o ≠ "yaml" then ⟨none, false, none⟩
    else if o = "json" then ⟨some .jsonPrinter, true, none⟩
    else ⟨some .yamlPrinter, true, none⟩

structure GoTemplatePrintFlags where
  allowMissingKeys : Option Bool
  templateArgument : Option String

structure JSONPathPrintFlags where
  allowMissingKeys : Option Bool
  templateArgument : Option String

def gtSupportedFormats : List String :=
  ["template", "go-template", "go-template-file", "templatefile"]

def jpSupportedFormats : List String :=
  ["jsonpath", "jsonpath-file"]

/-- Embeds the prefix-stripping loop shared by the template builders:
for each supported format `fmt`, if the current output format starts
with `fmt ++ "="` the remainder becomes the template argument and the
output format becomes `fmt`.  The Go code iterates a map in undefined
order, but the `fmt ++ "="` prefixes are mutually exclusive and a
rewritten format contains no `=`, so a fixed fold is faithful. -/
def mungeByFormats (formats : List String) (st : String × String) : String × String :=
  formats.foldl
    (fun st fmt =>
      if strStartsWith st.1 (fmt ++ "=") then (fmt, strDrop st.1 (strLen fmt + 1))
      else st)
    st

/-- Embeds `GoTemplatePrintFlags.ToPrinter`
(src/pkg/printers/json_yaml_flags.go, lines 209-250). -/
def GoTemplatePrintFlags.toPrinter (env : ResolveEnv) (f : GoTemplatePrintFlags)
    (outputFormat : String) : ToPrinterResult :=
  match f.templateArgument with
  | none => ⟨none, false, some .missingTemplateArgument⟩
  | some ta0 =>
    if strLen ta0 = 0 then ⟨none, false, some .missingTemplateArgument⟩
    else
      let st := mungeByFormats gtSupportedFormats (outputFormat, ta0)
      if st.1 ∈ gtSupportedFormats then
        match env.newGoTemplatePrinter st.2 with
        | .error e => ⟨none, true, some (.constructionError e)⟩
        | .ok _ => ⟨some (.goTemplate st.2 (f.allowMissingKeys.getD true)), true, none⟩
      else ⟨none, false, none⟩

/-- Embeds `JSONPathPrintFlags.ToPrinter` (src/unnamed/part_003,
lines 240-282).  The second nil check of the Go code (line 245) is
unreachable and therefore not represented. -/
def JSONPathPrintFlags.toPrinter (env : ResolveEnv) (f : JSONPathPrintFlags)
    (outputFormat : String) : ToPrinterResult :=
  match f.templateArgument with
  | none => ⟨none, false, some .missingTemplateValue⟩
  | some ta0 =>
    if strLen ta0 = 0 then ⟨none, false, some .missingTemplateValue⟩
    else
      let st := mungeByFormats jpSupportedFormats (outputFormat, ta0)
      if st.1 ∈ jpSupportedFormats then
        match env.newJSONPathPrinter st.2 with
        | .error e => ⟨none, true, some (.constructionError e)⟩
        | .ok _ => ⟨some (.jsonPath st.2 (f.allowMissingKeys.getD true)), true, none⟩
      else ⟨none, false, none⟩

/-- Modelled from the spec: `KubeTemplatePrintFlags` is referenced by
`GetStandardPrinter` (src/unnamed/part_001, lines 71-82) but its
`ToPrinter` method is not among the sources.  Per the resolver design
of the spec (section 4.2) it composes the go-template and JSONPath
builders as an ordered chain of responsibility in which the first
builder reporting a match wins. -/
def kubeTemplateToPrinter (env : ResolveEnv) (gt : GoTemplatePrintFlags)
    (jp : JSONPathPrintFlags) (outputFormat : String) : ToPrinterResult :=
  let r := gt.toPrinter env outputFormat
  if r.matched then r else jp.toPrinter env outputFormat

/-- Embeds the common pattern by which `GetStandardPrinter` consumes a
builder triple: an unmatched builder yields `noPrinterMatchedErr`, a
matched builder yields its error or its printer.  A matched builder
returning neither (a nil printer) would make the Go caller hand back a
nil printer; that unreachable case is marked `nilPrinter`. -/
def handleToPrinterResult (r : ToPrinterResult) : Except PrintersErr ResolvedPrinter :=
  if r.matched then
    match r.err with
    | some e => .error e
    | none =>
      match r.printer with
      | some p => .ok p
      | none => .error .nilPrinter
  else .error .noPrinterMatched

/-- Embeds the shared tail of the `template`/`go-template`/`jsonpath`
cases of `GetStandardPrinter` (src/unnamed/part_001, lines 68-90),
which the `*-file` cases fall through to after replacing the format
argument with the file contents. -/
def templateCaseResolve (env : ResolveEnv) (options : PrintOptions)
    (format formatArgument : String) : Except PrintersErr ResolvedPrinter :=
  let gt : GoTemplatePrintFlags := ⟨some options.allowMissingKeys, some formatArgument⟩
  let jp : JSONPathPrintFlags := ⟨some options.allowMissingKeys, some formatArgument⟩
  handleToPrinterResult (kubeTemplateToPrinter env gt jp format)

/-- Embeds `GetStandardPrinter` (src/unnamed/part_001, lines 33-117):
the switch on `options.OutputFormatType` selecting a renderer, with
`templatefile`/`go-template-file`/`jsonpath-file` reading the template
file and falling through to the inline-template case. -/
def GetStandardPrinter (env : ResolveEnv) (options : PrintOptions) :
    Except PrintersErr ResolvedPrinter :=
  let format := options.outputFormatType
  let formatArgument := options.outputFormatArgument
  if format = "json" ∨ format = "yaml" then
    handleToPrinterResult (jsonYamlToPrinter format)
  else if format = "name" then
    .ok .namePrinter
  else if format = "templatefile" ∨ format = "go-template-file" ∨ format = "jsonpath-file" then
    if strLen formatArgument = 0 then .error (.noTemplateFileGiven format)
    else
      match env.readFile formatArgument with
      | .error _ => .error (.templateReadError formatArgument)
      | .ok data => templateCaseResolve env options format data
  else if format = "template" ∨ format = "go-template" ∨ format = "jsonpath" then
    templateCaseResolve env options format formatArgument
  else if format = "custom-columns" then
    match env.newCustomColumnsFromSpec formatArgument options.noHeaders with
    | .error e => .error (.customColumnsError e)
    | .ok _ => .ok (.customColumns formatArgument options.noHeaders)
  else if format = "custom-columns-file" then
    match env.readFile formatArgument with
    | .error _ => .error (.templateReadError formatArgument)
    | .ok data =>
      match env.newCustomColumnsFromFile data with
      | .error e => .error (.customColumnsError e)
      | .ok _ => .ok (.customColumnsFromTemplate data)
  else if format = "wide" ∨ format = "" then
    .ok (.humanReadable options)
  else .error (.notRecognized format)

/-- The format types named by section 6 of the spec, in its order
(each `kind=<argument>` spelling contributes its kind). -/
def spec6FormatTypes : List String :=
  ["json", "yaml", "name", "wide", "", "go-template", "go-template-file",
   "template", "jsonpath", "jsonpath-file", "custom-columns", "custom-columns-file"]

/-! ## The ordered-builder resolver of src/unnamed/part_003

`TemplatePrintFlags.ToPrinter` (part_003, lines 102-139) iterates an
ordered `PrinterBuilders` list; builders receive the flags value after
its `OutputFormat`/`TemplateArgument` fields have been rewritten. -/

structure TFlags where
  allowMissingKeys : Option Bool
  templateArgument : Option String
  outputFormat : String

/-- A printer builder, as stored in `TemplatePrintFlags.PrinterBuilders`:
a function from the flags to the Go triple `(printer, matched, error)`. -/
def TBuilder : Type :=
  TFlags → ToPrinterResult

def part003TemplateFormats : List String :=
  ["go-template=", "go-template-file=", "jsonpath=", "jsonpath-file=",
   "custom-columns=", "custom-columns-file="]

/-- Embeds the prefix loop of part_003 lines 114-121: the first listed
format whose `kind=` spelling prefixes `f.OutputFormat` rewrites the
flags and the loop breaks.  As in the Go code, the argument is sliced
from the original `outputFormat` parameter (`orig`), which coincides
with `f.OutputFormat` whenever a prefix matches. -/
def mungeP3 (orig : String) : List String → TFlags → TFlags
  | [], f => f
  | fmt :: rest, f =>
    if strStartsWith f.outputFormat fmt then
      { f with templateArgument := some (strDrop orig (strLen fmt)),
               outputFormat := strTake fmt (strLen fmt - 1) }
    else mungeP3 orig rest f

/-- Embeds lines 103-121 of part_003: store the output format, default
it to `template` when empty but a template argument is present, then
strip a `kind=` prefix. -/
def part003Munge (f : TFlags) (outputFormat : String) : TFlags :=
  let f1 := { f with outputFormat := outputFormat }
  let f2 :=
    if strLen f1.outputFormat = 0 ∧ (f1.templateArgument.getD "") ≠ "" then
      { f1 with outputFormat := "template" }
    else f1
  mungeP3 outputFormat part003TemplateFormats f2

/-- Embeds the builder loop of part_003 lines 126-138: skip unmatched
builders; the first matched builder is final, returning its error if
present and otherwise its (possibly nil) printer. -/
def tfLoop (f : TFlags) : List TBuilder → Except PrintersErr (Option ResolvedPrinter)
  | [] => .error .noPrintersMatchedFlags
  | b :: rest =>
    let r := b f
    if r.matched then
      match r.err with
      | some e => .error e
      | none => .ok r.printer
    else tfLoop f rest

/-- Embeds `TemplatePrintFlags.ToPrinter` (part_003, lines 102-139). -/
def tfToPrinter (f : TFlags) (outputFormat : String) (builders : List TBuilder) :
    Except PrintersErr (Option ResolvedPrinter) :=
  tfLoop (part003Munge f outputFormat) builders

/-! ## Error aggregation

`GoError` mirrors a Go `error` value as the print session sees it: a
leaf message or an `Aggregate` of errors. -/

inductive GoError where
  | msg (s : String)
  | agg (errs : List GoError)
deriving Repr

mutual

/-- The leaf messages of an error, in order. -/
def GoError.messages : GoError → List String
  | .msg s => [s]
  | .agg es => goErrListMessages es

def goErrListMessages : List GoError → List String
  | [] => []
  | e :: rest => GoError.messages e ++ goErrListMessages rest

end

/-- An error is flat when it nests no aggregate inside an aggregate. -/
def GoError.isFlat : GoError → Bool
  | .msg _ => true
  | .agg es =>
    es.all fun e =>
      match e with
      | .msg _ => true
      | .agg _ => false

/-- Modelled from the spec: `utilerrors.NewAggregate` (package
`k8s.io/apimachinery/pkg/util/errors`, part of this repository but not
among the source files) — an empty error list aggregates to success
(`nil`), per spec section 4.6 "return the aggregate of collected
errors (empty implies success)". -/
def newAggregate (errs : List GoError) : Option GoError :=
  if errs.isEmpty then none else some (.agg errs)

/-- First-occurrence deduplication of a message list. -/
def dedupMessages (l : List String) : List String :=
  go [] l
where
  go (seen : List String) : List String → List String
    | [] => []
    | s :: rest => if s ∈ seen then go seen rest else s :: go (s :: seen) rest

/-- Modelled from the spec:
`utilerrors.Reduce(utilerrors.Flatten(utilerrors.NewAggregate errs))`
(package `k8s.io/apimachinery/pkg/util/errors`, part of this
repository but not among the source files) — per spec section 7,
"per-object errors are flattened and deduplicated before surfacing":
nested aggregates are unwrapped to their leaf messages, identical
messages surface once, and a singleton aggregate reduces to its sole
error. -/
def surfaceErrors (errs : List GoError) : Option GoError :=
  match dedupMessages (goErrListMessages errs) with
  | [] => none
  | [s] => some (.msg s)
  | ss => some (.agg (ss.map .msg))

/-! ## The one-shot print session of `GetOptions.Run`

Embeds the loop of src/pkg/kubectl/cmd/resource/get.go, lines 377-407.
An item is the decoded `info.Object`: either a server-side
`v1beta1.Table` (of which only the row count is consulted) or any
other object, identified opaquely.  `PrintObj` is the resolved
renderer, a parameter. -/

inductive RunItem where
  | table (rows : Nat)
  | obj (id : Nat)
deriving Repr, DecidableEq

/-- Embeds the guard at lines 388-392: a `*metav1beta1.Table` whose
`Rows` slice is empty. -/
def RunItem.isEmptyTable : RunItem → Bool
  | .table rows => rows == 0
  | .obj _ => false

structure RunState where
  flushes : Nat
  printedItems : List RunItem
  nonEmptyObjCount : Nat
  allErrs : List GoError
deriving Repr

/-- Embeds the per-item loop of `Run` (get.go lines 380-400): an empty
table is skipped; otherwise the sink is flushed, the non-empty count
incremented, `PrintObj` called, and a per-item error collected without
halting the iteration. -/
def runLoop (printObj : RunItem → Option GoError) :
    List RunItem → RunState → RunState
  | [], s => s
  | item :: rest, s =>
    if item.isEmptyTable then runLoop printObj rest s
    else
      let s1 : RunState :=
        { s with flushes := s.flushes + 1,
                 printedItems := s.printedItems ++ [item],
                 nonEmptyObjCount := s.nonEmptyObjCount + 1 }
      let s2 : RunState :=
        match printObj item with
        | some e => { s1 with allErrs := s1.allErrs ++ [e] }
        | none => s1
      runLoop printObj rest s2

structure RunOutcome where
  flushes : Nat
  printedItems : List RunItem
  nonEmptyObjCount : Nat
  allErrs : List GoError
  errLines : List String
  finalErr : Option GoError
deriving Repr

/-- Embeds `Run` from the loop on (get.go lines 377-407): run the loop
over the (already sorted) items, flush once more, emit the
"No resources found." diagnostic when nothing printed and
ignore-not-found was not requested, and return the aggregate of the
collected errors. -/
def runSession (printObj : RunItem → Option GoError) (items : List RunItem)
    (ignoreNotFound : Bool) : RunOutcome :=
  let s := runLoop printObj items ⟨0, [], 0, []⟩
  { flushes := s.flushes + 1,
    printedItems := s.printedItems,
    nonEmptyObjCount := s.nonEmptyObjCount,
    allErrs := s.allErrs,
    errLines :=
      if s.nonEmptyObjCount = 0 ∧ ¬ ignoreNotFound then ["No resources found."] else [],
    finalErr := newAggregate s.allErrs }

/-! ## The error flow of `printGeneric`

Embeds the error-relevant control flow of src/pkg/kubectl/cmd/resource/get.go,
lines 580-674, abstracting over the object plumbing: the input records
whether the fetch produced an error, whether a single item was implied,
whether the fetched info list is empty, and the outcome of the single
`PrintObj` call at the end of whichever shape (list or single) is taken. -/

structure PrintGenericInput where
  fetchErr : Option GoError
  singleItemImplied : Bool
  infosEmpty : Bool
  ignoreNotFound : Bool
  printResult : Option GoError

/-- The per-invocation error list `errs` that `printGeneric`
accumulates before surfacing it. -/
def collectedErrs (inp : PrintGenericInput) : List GoError :=
  let errs : List GoError :=
    match inp.fetchErr with
    | some e => [e]
    | none => []
  if inp.infosEmpty ∧ inp.ignoreNotFound then errs
  else
    match inp.printResult with
    | some e => errs ++ [e]
    | none => errs

/-- Embeds the returns of `printGeneric` (get.go lines 594-673): a
fetch error with a single item implied returns raw; every other path
returns `Reduce(Flatten(NewAggregate errs))` over the collected errors. -/
def printGenericErrors (inp : PrintGenericInput) : Option GoError :=
  match inp.fetchErr with
  | some e =>
    if inp.singleItemImplied then some e
    else
      if inp.infosEmpty ∧ inp.ignoreNotFound then surfaceErrors [e]
      else
        match inp.printResult with
        | some e2 => surfaceErrors [e, e2]
        | none => surfaceErrors [e]
  | none =>
    if inp.infosEmpty ∧ inp.ignoreNotFound then surfaceErrors []
    else
      match inp.printResult with
      | some e2 => surfaceErrors [e2]
      | none => surfaceErrors []

/-! ## The watch loop of `GetOptions.watch`

Embeds src/pkg/kubectl/cmd/resource/get.go, lines 432-549.  Objects
are opaque identifiers; the version converter and the resolved
printer are parameters (`convert`, `printObj`), and the event stream
is the list of events the subscription delivers before closing. -/

structure GVK where
  group : String
  version : String
  kind : String
deriving Repr, DecidableEq

/-- An opaque runtime object, identified by a number. -/
abbrev Obj : Type :=
  Nat

/-- The object returned by `r.Object()`: either a single object or a
list carrying its resourceVersion and extracted items. -/
inductive WatchTarget where
  | single (o : Obj)
  | list (rv : String) (items : List Obj)
deriving Repr

/-- Embeds `meta.IsListType(obj)` (get.go line 491). -/
def WatchTarget.isListTarget : WatchTarget → Bool
  | .single _ => false
  | .list _ _ => true

/-- Embeds the cursor selection of get.go lines 490-499: `"0"` for a
single object, the list resourceVersion for a list. -/
def WatchTarget.resourceVersionCursor : WatchTarget → String
  | .single _ => "0"
  | .list rv _ => rv

/-- Embeds `objsToPrint` of get.go lines 503-510: the extracted list
items, or the single object itself. -/
def WatchTarget.snapshotObjs : WatchTarget → List Obj
  | .single o => [o]
  | .list _ items => items

/-- A watch event; the embedded loop reads only `e.Object`. -/
structure WatchEvent where
  obj : Obj
deriving Repr, DecidableEq

/-- Embeds `attemptToConvertToInternal` (get.go lines 552-559):
convert, and on failure return the original object. -/
def attemptToConvertToInternal (convert : Obj → Except String Obj) (o : Obj) : Obj :=
  match convert o with
  | .ok internalObject => internalObject
  | .error _ => o

/-- Embeds the initial-snapshot loop of get.go lines 511-518: print
each object after the conversion attempt; the first print error is
fatal.  Returns the objects handed to `PrintObj` and the error, if
any, that stopped the loop. -/
def printAll (printObj : Obj → Option String) (convert : Obj → Except String Obj) :
    List Obj → List Obj × Option String
  | [] => ([], none)
  | o :: rest =>
    let rendered := attemptToConvertToInternal convert o
    match printObj rendered with
    | some err => ([rendered], some err)
    | none =>
      let t := printAll printObj convert rest
      (rendered :: t.1, t.2)

/-- Embeds the `watch.Until` callback of get.go lines 531-545: in the
single-resource case the first event is dropped and the flag cleared;
every other event is printed after the conversion attempt, a print
error ending the consumption. -/
def streamLoop (printObj : Obj → Option String) (convert : Obj → Except String Obj)
    (isList : Bool) : Bool → List WatchEvent → List Obj × Option String
  | _, [] => ([], none)
  | first, e :: rest =>
    if ¬ isList ∧ first then streamLoop printObj convert isList false rest
    else
      let rendered := attemptToConvertToInternal convert e.obj
      match printObj rendered with
      | some err => ([rendered], some err)
      | none =>
        let t := streamLoop printObj convert isList first rest
        (rendered :: t.1, t.2)

inductive WatchErr where
  | noInfos
  | multipleGVKs (uniqueGVKs : Nat)
  | unableToOutput (msg : String)
deriving Repr, DecidableEq

/-- The observable trace of one `watch` invocation: the objects handed
to `PrintObj` in order, the resourceVersion passed to `r.Watch` (none
when the subscription was never opened), the stream print error that
`watch.Until` reported (discarded by the Go caller), and the fatal
error returned before streaming, if any. -/
structure WatchOutcome where
  renders : List Obj
  watchRV : Option String
  streamErr : Option String
  fatalErr : Option WatchErr
deriving Repr

/-- Embeds `GetOptions.watch` (get.go lines 432-549): validate that
the fetched infos agree on one GroupVersionKind (lines 453-472),
render the initial snapshot unless watch-only (lines 502-520), then
open the subscription at the chosen cursor and consume events
(lines 523-547).  `infos` carries the GroupVersionKind of each info
returned by the builder. -/
def watchRun (infos : List GVK) (target : WatchTarget) (watchOnly : Bool)
    (events : List WatchEvent) (convert : Obj → Except String Obj)
    (printObj : Obj → Option String) : WatchOutcome :=
  match infos with
  | [] => ⟨[], none, none, some .noInfos⟩
  | g0 :: rest =>
    let infosAll := g0 :: rest
    let uniqueGVKs := 1 + infosAll.countP (fun g => decide (g ≠ g0))
    if 1 < infosAll.length ∧ 1 < uniqueGVKs then
      ⟨[], none, none, some (.multipleGVKs uniqueGVKs)⟩
    else
      let isL := target.isListTarget
      let rv := target.resourceVersionCursor
      let snap :=
        if ¬ watchOnly then printAll printObj convert target.snapshotObjs
        else ([], none)
      match snap.2 with
      | some e => ⟨snap.1, none, none, some (.unableToOutput e)⟩
      | none =>
        let str := streamLoop printObj convert isL true events
        ⟨snap.1 ++ str.1, some rv, str.2, none⟩

/-- The event objects that the streaming phase renders: every event
for a list target, all but the first for a single-object target. -/
def keptEventObjs (isList : Bool) (events : List WatchEvent) : List Obj :=
  (if isList then events else events.drop 1).map WatchEvent.obj

/-- The messages surfaced by an optional error. -/
def errMessages : Option GoError → List String
  | none => []
  | some e => e.messages

/-- Whether an optional error is flat (no aggregate inside an aggregate). -/
def errIsFlat : Option GoError → Bool
  | none => true
  | some e => e.isFlat

/-- The non-skipped items of a print session: everything except tables
with zero rows. -/
def nonSkipped (items : List RunItem) : List RunItem :=
  items.filter fun i => ! i.isEmptyTable

/-! ## Concrete fixtures for witnesses and counterexamples -/

/-- An environment in which every external collaborator succeeds: the
file system returns the template text `.metadata.name` and every
printer construction compiles. -/
def envOk : ResolveEnv :=
  { readFile := fun _ => .ok ".metadata.name",
    newGoTemplatePrinter := fun _ => .ok (),
    newJSONPathPrinter := fun _ => .ok (),
    newCustomColumnsFromSpec := fun _ _ => .ok (),
    newCustomColumnsFromFile := fun _ => .ok () }

/-- Print options with the given format type and argument. -/
def mkOpts (fmt arg : String) : PrintOptions :=
  { outputFormatType := fmt, outputFormatArgument := arg,
    allowMissingKeys := true, noHeaders := false, wide := false }

/-- A builder that declines every flags value. -/
def builderDecline : TBuilder :=
  fun _ => ⟨none, false, none⟩

/-- A builder that matches and fails to construct its printer. -/
def builderMatchFail : TBuilder :=
  fun _ => ⟨none, true, some (.constructionError "bad template")⟩

/-- A builder that matches and constructs a JSON printer. -/
def builderMatchJson : TBuilder :=
  fun _ => ⟨some .jsonPrinter, true, none⟩

/-- A renderer that fails on every item with the same message. -/
def printObjBoom : RunItem → Option GoError :=
  fun _ => some (.msg "boom")

/-! ## Helper lemmas -/

theorem runLoop_spec (printObj : RunItem → Option GoError) (items : List RunItem)
    (s : RunState) :
    runLoop printObj items s =
      { flushes := s.flushes + (nonSkipped items).length,
        printedItems := s.printedItems ++ nonSkipped items,
        nonEmptyObjCount := s.nonEmptyObjCount + (nonSkipped items).length,
        allErrs := s.allErrs ++ (nonSkipped items).filterMap printObj } := by
  induction items generalizing s with
  | nil => simp [runLoop, nonSkipped]
  | cons item rest ih =>
    by_cases h : item.isEmptyTable
    · simp only [runLoop, h, if_pos]
      rw [ih]
      simp [nonSkipped, h]
    · simp only [runLoop, h, if_neg, Bool.false_eq_true, not_false_eq_true]
      cases hp : printObj item with
      | some e =>
        rw [ih]
        simp [nonSkipped, h, hp, List.filter_cons, List.filterMap_cons]
        omega
      | none =>
        rw [ih]
        simp [nonSkipped, h, hp, List.filter_cons, List.filterMap_cons]
        omega

theorem strLen_eq_zero (s : String) : strLen s = 0 ↔ s = "" := by
  constructor
  · intro h
    cases s with
    | mk data =>
      cases data with
      | nil => rfl
      | cons a as => simp [strLen] at h
  · intro h
    subst h
    rfl

theorem runSession_spec (printObj : RunItem → Option GoError) (items : List RunItem)
    (ignoreNotFound : Bool) :
    runSession printObj items ignoreNotFound =
      { flushes := (nonSkipped items).length + 1,
        printedItems := nonSkipped items,
        nonEmptyObjCount := (nonSkipped items).length,
        allErrs := (nonSkipped items).filterMap printObj,
        errLines :=
          if (nonSkipped items).length = 0 ∧ ¬ ignoreNotFound
          then ["No resources found."] else [],
        finalErr := newAggregate ((nonSkipped items).filterMap printObj) } := by
  unfold runSession
  rw [runLoop_spec]
  simp

theorem printAll_ok (printObj : Obj → Option String) (convert : Obj → Except String Obj)
    (hp : ∀ o, printObj o = none) (objs : List Obj) :
    printAll printObj convert objs = (objs.map (attemptToConvertToInternal convert), none) := by
  induction objs with
  | nil => rfl
  | cons o rest ih => simp [printAll, hp, ih]

theorem streamLoop_ok (printObj : Obj → Option String) (convert : Obj → Except String Obj)
    (hp : ∀ o, printObj o = none) (isL : Bool) (events : List WatchEvent) :
    ∀ first : Bool,
      streamLoop printObj convert isL first events =
        ((if isL = false ∧ first = true then events.drop 1 else events).map
          (fun e => attemptToConvertToInternal convert e.obj), none) := by
  induction events with
  | nil =>
    intro first
    cases isL <;> cases first <;> simp [streamLoop]
  | cons e rest ih =>
    intro first
    cases isL with
    | false =>
      cases first with
      | true => simp [streamLoop, ih false]
      | false => simp [streamLoop, hp, ih false]
    | true => simp [streamLoop, hp, ih first]

theorem watchRun_ok (g0 : GVK) (rest : List GVK) (hsame : ∀ g ∈ g0 :: rest, g = g0)
    (target : WatchTarget) (watchOnly : Bool) (events : List WatchEvent)
    (convert : Obj → Except String Obj) (printObj : Obj → Option String)
    (hp : ∀ o, printObj o = none) :
    watchRun (g0 :: rest) target watchOnly events convert printObj =
      ⟨(if watchOnly then [] else target.snapshotObjs.map (attemptToConvertToInternal convert))
          ++ (keptEventObjs target.isListTarget events).map (attemptToConvertToInternal convert),
        some target.resourceVersionCursor, none, none⟩ := by
  have hcount : (g0 :: rest).countP (fun g => decide (g ≠ g0)) = 0 := by
    rw [List.countP_eq_zero]
    intro g hg
    simp [hsame g hg]
  have hcond : ¬ (1 < (g0 :: rest).length
      ∧ 1 < 1 + (g0 :: rest).countP (fun g => decide (g ≠ g0))) := by
    rw [hcount]
    intro h
    omega
  simp only [watchRun]
  rw [if_neg hcond]
  rw [printAll_ok printObj convert hp,
    streamLoop_ok printObj convert hp target.isListTarget events true]
  cases hw : watchOnly <;> cases hL : target.isListTarget <;>
    simp [keptEventObjs, List.map_map, Function.comp_def]

theorem dedupMessages_go_spec (l : List String) :
    ∀ seen : List String,
      (dedupMessages.go seen l).Nodup ∧ ∀ s ∈ dedupMessages.go seen l, s ∉ seen := by
  induction l with
  | nil =>
    intro seen
    simp [dedupMessages.go]
  | cons s rest ih =>
    intro seen
    by_cases h : s ∈ seen
    · simpa [dedupMessages.go, h] using ih seen
    · obtain ⟨hn, hs⟩ := ih (s :: seen)
      refine ⟨?_, ?_⟩
      · simp only [dedupMessages.go]
        rw [if_neg h, List.nodup_cons]
        exact ⟨fun hmem => (hs s hmem) (by simp), hn⟩
      · simp only [dedupMessages.go]
        rw [if_neg h]
        intro t ht
        rcases List.mem_cons.mp ht with rfl | ht2
        · exact h
        · intro hts
          exact hs t ht2 (by simp [hts])

theorem dedupMessages_nodup (l : List String) : (dedupMessages l).Nodup :=
  (dedupMessages_go_spec l []).1

theorem goErrListMessages_map_msg (ss : List String) :
    goErrListMessages (ss.map GoError.msg) = ss := by
  induction ss with
  | nil => rfl
  | cons s rest ih => simp [goErrListMessages, GoError.messages, ih]

theorem surfaceErrors_nodup_flat (errs : List GoError) :
    (errMessages (surfaceErrors errs)).Nodup ∧ errIsFlat (surfaceErrors errs) = true := by
  have hN := dedupMessages_nodup (goErrListMessages errs)
  cases h : dedupMessages (goErrListMessages errs) with
  | nil => simp [surfaceErrors, h, errMessages, errIsFlat]
  | cons a tl =>
    cases tl with
    | nil =>
      simp [surfaceErrors, h, errMessages, errIsFlat, GoError.messages, GoError.isFlat]
    | cons b tl2 =>
      rw [h] at hN
      refine ⟨?_, ?_⟩
      · simpa [surfaceErrors, h, errMessages, GoError.messages, goErrListMessages,
          goErrListMessages_map_msg] using hN
      · simp only [surfaceErrors, h, errIsFlat, GoError.isFlat, List.all_eq_true]
        intro e he
        rcases List.mem_map.mp he with ⟨s, hs, rfl⟩
        rfl

/-! ## Claim theorems -/

/-- C4: in a one-shot print session, a table item with zero rows is
skipped entirely — the session outcome (flush count, `PrintObj` calls,
printed-object count, collected errors, diagnostics, final error) is
exactly that of the item sequence without it; and when at least one
other item prints, no "No resources found." line is emitted. -/
theorem run_empty_table_skipped (printObj : RunItem → Option GoError)
    (xs ys : List RunItem) (ign : Bool) :
    runSession printObj (xs ++ RunItem.table 0 :: ys) ign
      = runSession printObj (xs ++ ys) ign
    ∧ (0 < (runSession printObj (xs ++ ys) ign).nonEmptyObjCount →
        (runSession printObj (xs ++ ys) ign).errLines = []) := by
  have hfilter : nonSkipped (xs ++ RunItem.table 0 :: ys) = nonSkipped (xs ++ ys) := by
    simp [nonSkipped, List.filter_append, List.filter_cons, RunItem.isEmptyTable]
  constructor
  · rw [runSession_spec, runSession_spec, hfilter]
  · intro h
    rw [runSession_spec] at h ⊢
    simp only [RunOutcome.mk.injEq] at h ⊢
    rw [if_neg]
    intro hc
    omega

/-- C4 witness: with one real object on each side of an empty table,
the session outcome equals that of the two objects alone and no
"No resources found." line appears. -/
theorem run_empty_table_skipped_witness :
    runSession printObjBoom ([RunItem.obj 1] ++ RunItem.table 0 :: [RunItem.obj 2]) false
      = runSession printObjBoom ([RunItem.obj 1] ++ [RunItem.obj 2]) false
    ∧ (runSession printObjBoom ([RunItem.obj 1] ++ [RunItem.obj 2]) false).errLines = [] :=
  ⟨(run_empty_table_skipped printObjBoom [RunItem.obj 1] [RunItem.obj 2] false).1,
   (run_empty_table_skipped printObjBoom [RunItem.obj 1] [RunItem.obj 2] false).2
     (by rw [runSession_spec]; decide)⟩

/-- C5: after the session loop, if nothing printed and ignore-not-found
was not requested, exactly the line "No resources found." is written to
the error sink and the aggregate of the collected errors is returned —
success when none were collected; with ignore-not-found set, an empty
result prints nothing and returns success. -/
theorem run_no_resources_found (printObj : RunItem → Option GoError)
    (items : List RunItem) (ign : Bool) :
    ((runSession printObj items ign).nonEmptyObjCount = 0 → ign = false →
        (runSession printObj items ign).errLines = ["No resources found."]
        ∧ (runSession printObj items ign).finalErr
            = newAggregate ((runSession printObj items ign).allErrs))
    ∧ ((runSession printObj items ign).allErrs = [] →
        (runSession printObj items ign).finalErr = none)
    ∧ (ign = true → items = [] →
        (runSession printObj items ign).errLines = []
        ∧ (runSession printObj items ign).finalErr = none) := by
  refine ⟨?_, ?_, ?_⟩
  · intro h0 hign
    subst hign
    rw [runSession_spec] at h0 ⊢
    refine ⟨?_, rfl⟩
    rw [if_pos]
    exact ⟨h0, by simp⟩
  · intro h0
    rw [runSession_spec] at h0 ⊢
    have h1 : (nonSkipped items).filterMap printObj = [] := h0
    show newAggregate ((nonSkipped items).filterMap printObj) = none
    rw [h1, newAggregate]
    simp
  · intro hign hitems
    subst hign
    subst hitems
    rw [runSession_spec]
    refine ⟨by simp, by simp [nonSkipped, newAggregate]⟩

/-- C5 witness: an empty item list with ignore-not-found unset prints
exactly the diagnostic and succeeds; with it set, nothing is printed. -/
theorem run_no_resources_found_witness :
    (runSession printObjBoom [] false).errLines = ["No resources found."]
    ∧ (runSession printObjBoom [] false).finalErr
        = newAggregate ((runSession printObjBoom [] false).allErrs)
    ∧ (runSession printObjBoom [] false).finalErr = none
    ∧ (runSession printObjBoom [] true).errLines = []
    ∧ (runSession printObjBoom [] true).finalErr = none :=
  ⟨((run_no_resources_found printObjBoom [] false).1 (by rfl) rfl).1,
   ((run_no_resources_found printObjBoom [] false).1 (by rfl) rfl).2,
   (run_no_resources_found printObjBoom [] false).2.1 (by rfl),
   ((run_no_resources_found printObjBoom [] true).2.2 rfl rfl).1,
   ((run_no_resources_found printObjBoom [] true).2.2 rfl rfl).2⟩

/-- C6: a render error on one object is non-fatal — every non-skipped
item is still offered to `PrintObj` in order, the failures are
collected in order, and the session result is their aggregate. -/
theorem run_per_item_errors_nonfatal (printObj : RunItem → Option GoError)
    (items : List RunItem) (ign : Bool) :
    (runSession printObj items ign).printedItems = nonSkipped items
    ∧ (runSession printObj items ign).allErrs = (nonSkipped items).filterMap printObj
    ∧ (runSession printObj items ign).finalErr
        = newAggregate ((nonSkipped items).filterMap printObj) := by
  rw [runSession_spec]
  exact ⟨rfl, rfl, rfl⟩

/-- C7 counterexample: the non-generic one-shot path returns the plain
aggregate of the collected errors — two identical per-object error
messages both surface, so this path does not deduplicate (nor flatten)
before returning. -/
theorem run_aggregate_not_deduplicated :
    (runSession printObjBoom [RunItem.obj 1, RunItem.obj 2] false).finalErr
      = some (.agg [.msg "boom", .msg "boom"])
    ∧ ¬ (errMessages
          (runSession printObjBoom [RunItem.obj 1, RunItem.obj 2] false).finalErr).Nodup := by
  constructor
  · rfl
  · intro h
    simp [errMessages, GoError.messages, goErrListMessages,
      show (runSession printObjBoom [RunItem.obj 1, RunItem.obj 2] false).finalErr
          = some (.agg [.msg "boom", .msg "boom"]) from rfl] at h

/-- C7 amended: only the generic-printing path surfaces its collected
errors flattened and deduplicated; the non-generic one-shot session
returns the plain aggregate of its collected errors. -/
theorem error_surfacing_paths :
    (∀ inp : PrintGenericInput,
        ¬ (inp.fetchErr.isSome = true ∧ inp.singleItemImplied = true) →
        printGenericErrors inp = surfaceErrors (collectedErrs inp))
    ∧ (∀ errs : List GoError,
        (errMessages (surfaceErrors errs)).Nodup
        ∧ errIsFlat (surfaceErrors errs) = true)
    ∧ (∀ (printObj : RunItem → Option GoError) (items : List RunItem) (ign : Bool),
        (runSession printObj items ign).finalErr
          = newAggregate ((runSession printObj items ign).allErrs)) := by
  refine ⟨?_, surfaceErrors_nodup_flat, ?_⟩
  · intro inp hno
    cases hf : inp.fetchErr with
    | none =>
      by_cases hie : inp.infosEmpty = true ∧ inp.ignoreNotFound = true
      · simp [printGenericErrors, collectedErrs, hf, hie]
      · cases hp : inp.printResult <;>
          simp [printGenericErrors, collectedErrs, hf, hie, hp]
    | some e =>
      have hsii : inp.singleItemImplied = false := by
        cases hs : inp.singleItemImplied with
        | false => rfl
        | true => exact absurd ⟨by simp [hf], hs⟩ hno
      simp only [printGenericErrors, collectedErrs, hf, hsii, Bool.false_eq_true, if_false]
      by_cases hie : inp.infosEmpty = true ∧ inp.ignoreNotFound = true
      · simp [hie]
      · simp only [hie, if_neg, if_false]
        cases hp : inp.printResult with
        | none => simp
        | some e2 => simp
  · intro printObj items ign
    rw [runSession_spec]

/-- C7 amended witness: a generic-path invocation with a duplicated
message surfaces it once; the non-generic session returns the plain
aggregate. -/
theorem error_surfacing_paths_witness :
    printGenericErrors ⟨some (.msg "a"), false, false, false, some (.msg "a")⟩
      = surfaceErrors (collectedErrs ⟨some (.msg "a"), false, false, false, some (.msg "a")⟩)
    ∧ (errMessages (surfaceErrors [.msg "a", .msg "a"])).Nodup
    ∧ errIsFlat (surfaceErrors [.msg "a", .msg "a"]) = true
    ∧ (runSession printObjBoom [RunItem.obj 3] false).finalErr
        = newAggregate ((runSession printObjBoom [RunItem.obj 3] false).allErrs) :=
  ⟨error_surfacing_paths.1 ⟨some (.msg "a"), false, false, false, some (.msg "a")⟩ (by simp),
   (error_surfacing_paths.2.1 [.msg "a", .msg "a"]).1,
   (error_surfacing_paths.2.1 [.msg "a", .msg "a"]).2,
   error_surfacing_paths.2.2 printObjBoom [RunItem.obj 3] false⟩

/-- C2 counterexample: the undocumented format type `templatefile` is
outside the set enumerated by section 6, yet `GetStandardPrinter`
accepts it (resolving it like `go-template-file`) instead of returning
the output-format-not-recognized error. -/
theorem getStandardPrinter_templatefile_counterexample :
    "templatefile" ∉ spec6FormatTypes
    ∧ GetStandardPrinter envOk (mkOpts "templatefile" "t.tpl")
        = .ok (.goTemplate ".metadata.name" true)
    ∧ GetStandardPrinter envOk (mkOpts "templatefile" "t.tpl")
        ≠ .error (.notRecognized "templatefile") := by
  refine ⟨by decide, rfl, ?_⟩
  intro h
  rw [show GetStandardPrinter envOk (mkOpts "templatefile" "t.tpl")
      = .ok (.goTemplate ".metadata.name" true) from rfl] at h
  exact Except.noConfusion h

/-- C2 amended: for every format type enumerated in section 6 the
resolver returns the documented renderer kind — the empty string and
`wide` both the human-readable table printer — and every other format
type except the undocumented alias `templatefile` (resolved like
`go-template-file`) yields the not-recognized error naming it. -/
theorem getStandardPrinter_resolution (env : ResolveEnv)
    (a tpl path content spec other : String)
    (htpl : tpl ≠ "")
    (hgo : env.newGoTemplatePrinter tpl = .ok ())
    (hjp : env.newJSONPathPrinter tpl = .ok ())
    (hpath : path ≠ "")
    (hread : env.readFile path = .ok content)
    (hcontent : content ≠ "")
    (hgoc : env.newGoTemplatePrinter content = .ok ())
    (hjpc : env.newJSONPathPrinter content = .ok ())
    (hcc : env.newCustomColumnsFromSpec spec false = .ok ())
    (hccf : env.newCustomColumnsFromFile content = .ok ())
    (hother : other ∉ "templatefile" :: spec6FormatTypes) :
    GetStandardPrinter env (mkOpts "json" a) = .ok .jsonPrinter
    ∧ GetStandardPrinter env (mkOpts "yaml" a) = .ok .yamlPrinter
    ∧ GetStandardPrinter env (mkOpts "name" a) = .ok .namePrinter
    ∧ GetStandardPrinter env (mkOpts "" a) = .ok (.humanReadable (mkOpts "" a))
    ∧ GetStandardPrinter env (mkOpts "wide" a) = .ok (.humanReadable (mkOpts "wide" a))
    ∧ GetStandardPrinter env (mkOpts "go-template" tpl) = .ok (.goTemplate tpl true)
    ∧ GetStandardPrinter env (mkOpts "template" tpl) = .ok (.goTemplate tpl true)
    ∧ GetStandardPrinter env (mkOpts "jsonpath" tpl) = .ok (.jsonPath tpl true)
    ∧ GetStandardPrinter env (mkOpts "go-template-file" path) = .ok (.goTemplate content true)
    ∧ GetStandardPrinter env (mkOpts "templatefile" path) = .ok (.goTemplate content true)
    ∧ GetStandardPrinter env (mkOpts "jsonpath-file" path) = .ok (.jsonPath content true)
    ∧ GetStandardPrinter env (mkOpts "custom-columns" spec) = .ok (.customColumns spec false)
    ∧ GetStandardPrinter env (mkOpts "custom-columns-file" path)
        = .ok (.customColumnsFromTemplate content)
    ∧ GetStandardPrinter env (mkOpts other a) = .error (.notRecognized other) := by
  refine ⟨?_, ?_, ?_, ?_, ?_, ?_, ?_, ?_, ?_, ?_, ?_, ?_, ?_, ?_⟩
  · simp +decide [GetStandardPrinter, mkOpts, handleToPrinterResult, jsonYamlToPrinter,
      strLen_eq_zero, strToLower]
  · simp +decide [GetStandardPrinter, mkOpts, handleToPrinterResult, jsonYamlToPrinter,
      strLen_eq_zero, strToLower]
  · simp +decide [GetStandardPrinter, mkOpts]
  · simp +decide [GetStandardPrinter, mkOpts]
  · simp +decide [GetStandardPrinter, mkOpts]
  · simp +decide [GetStandardPrinter, mkOpts, templateCaseResolve, kubeTemplateToPrinter,
      GoTemplatePrintFlags.toPrinter, handleToPrinterResult, mungeByFormats,
      gtSupportedFormats, strLen_eq_zero, htpl, hgo, strStartsWith, listIsPre]
  · simp +decide [GetStandardPrinter, mkOpts, templateCaseResolve, kubeTemplateToPrinter,
      GoTemplatePrintFlags.toPrinter, handleToPrinterResult, mungeByFormats,
      gtSupportedFormats, strLen_eq_zero, htpl, hgo, strStartsWith, listIsPre]
  · simp +decide [GetStandardPrinter, mkOpts, templateCaseResolve, kubeTemplateToPrinter,
      GoTemplatePrintFlags.toPrinter, JSONPathPrintFlags.toPrinter, handleToPrinterResult,
      mungeByFormats, gtSupportedFormats, jpSupportedFormats, strLen_eq_zero, htpl, hjp,
      strStartsWith, listIsPre]
  · simp +decide [GetStandardPrinter, mkOpts, templateCaseResolve, kubeTemplateToPrinter,
      GoTemplatePrintFlags.toPrinter, handleToPrinterResult, mungeByFormats,
      gtSupportedFormats, strLen_eq_zero, hpath, hread, hcontent, hgoc,
      strStartsWith, listIsPre]
  · simp +decide [GetStandardPrinter, mkOpts, templateCaseResolve, kubeTemplateToPrinter,
      GoTemplatePrintFlags.toPrinter, handleToPrinterResult, mungeByFormats,
      gtSupportedFormats, strLen_eq_zero, hpath, hread, hcontent, hgoc,
      strStartsWith, listIsPre]
  · simp +decide [GetStandardPrinter, mkOpts, templateCaseResolve, kubeTemplateToPrinter,
      GoTemplatePrintFlags.toPrinter, JSONPathPrintFlags.toPrinter, handleToPrinterResult,
      mungeByFormats, gtSupportedFormats, jpSupportedFormats, strLen_eq_zero,
      hpath, hread, hcontent, hjpc, strStartsWith, listIsPre]
  · simp +decide [GetStandardPrinter, mkOpts, hcc]
  · simp +decide [GetStandardPrinter, mkOpts, hread, hccf]
  · simp [spec6FormatTypes, List.mem_cons] at hother
    push_neg at hother
    obtain ⟨h1, h2, h3, h4, h5, h6, h7, h8, h9, h10, h11, h12, h13⟩ := hother
    simp [GetStandardPrinter, mkOpts, h1, h2, h3, h4, h5, h6, h7, h8, h9, h10, h11, h12, h13]

/-- C2 witness: the amended resolution facts at a concrete environment
whose file system returns the template `.metadata.name` and whose
compilers always succeed. -/
theorem getStandardPrinter_resolution_witness :
    GetStandardPrinter envOk (mkOpts "json" "") = .ok .jsonPrinter
    ∧ GetStandardPrinter envOk (mkOpts "yaml" "") = .ok .yamlPrinter
    ∧ GetStandardPrinter envOk (mkOpts "name" "") = .ok .namePrinter
    ∧ GetStandardPrinter envOk (mkOpts "" "") = .ok (.humanReadable (mkOpts "" ""))
    ∧ GetStandardPrinter envOk (mkOpts "wide" "") = .ok (.humanReadable (mkOpts "wide" ""))
    ∧ GetStandardPrinter envOk (mkOpts "go-template" "x.y") = .ok (.goTemplate "x.y" true)
    ∧ GetStandardPrinter envOk (mkOpts "template" "x.y") = .ok (.goTemplate "x.y" true)
    ∧ GetStandardPrinter envOk (mkOpts "jsonpath" "x.y") = .ok (.jsonPath "x.y" true)
    ∧ GetStandardPrinter envOk (mkOpts "go-template-file" "t.tpl")
        = .ok (.goTemplate ".metadata.name" true)
    ∧ GetStandardPrinter envOk (mkOpts "templatefile" "t.tpl")
        = .ok (.goTemplate ".metadata.name" true)
    ∧ GetStandardPrinter envOk (mkOpts "jsonpath-file" "t.tpl")
        = .ok (.jsonPath ".metadata.name" true)
    ∧ GetStandardPrinter envOk (mkOpts "custom-columns" "NAME:.metadata.name")
        = .ok (.customColumns "NAME:.metadata.name" false)
    ∧ GetStandardPrinter envOk (mkOpts "custom-columns-file" "t.tpl")
        = .ok (.customColumnsFromTemplate ".metadata.name")
    ∧ GetStandardPrinter envOk (mkOpts "bogus" "") = .error (.notRecognized "bogus") :=
  getStandardPrinter_resolution envOk "" "x.y" "t.tpl" ".metadata.name"
    "NAME:.metadata.name" "bogus" (by decide) rfl rfl (by decide) rfl (by decide)
    rfl rfl rfl rfl (by decide)

/-- C3: in the ordered-builder resolver, the first builder reporting a
match decides the outcome — its construction error, if any, is final
and no later builder is consulted — and if no builder matches, a single
no-printers-matched error is returned. -/
theorem templateFlags_first_builder_wins :
    (∀ (f : TFlags) (of : String) (pre post : List TBuilder) (b : TBuilder),
        (∀ g ∈ pre, (g (part003Munge f of)).matched = false) →
        (b (part003Munge f of)).matched = true →
        tfToPrinter f of (pre ++ b :: post) =
          match (b (part003Munge f of)).err with
          | some e => .error e
          | none => .ok ((b (part003Munge f of)).printer))
    ∧ (∀ (f : TFlags) (of : String) (builders : List TBuilder),
        (∀ g ∈ builders, (g (part003Munge f of)).matched = false) →
        tfToPrinter f of builders = .error .noPrintersMatchedFlags) := by
  constructor
  · intro f of pre post b hpre hb
    unfold tfToPrinter
    induction pre with
    | nil =>
      simp only [List.nil_append, tfLoop, hb, if_true]
    | cons g gs ih =>
      have hg : (g (part003Munge f of)).matched = false := hpre g (by simp)
      have hrest : ∀ x ∈ gs, (x (part003Munge f of)).matched = false :=
        fun x hx => hpre x (by simp [hx])
      simp only [List.cons_append, tfLoop, hg, Bool.false_eq_true, if_false]
      exact ih hrest
  · intro f of builders hall
    unfold tfToPrinter
    induction builders with
    | nil => rfl
    | cons g gs ih =>
      have hg : (g (part003Munge f of)).matched = false := hall g (by simp)
      have hrest : ∀ x ∈ gs, (x (part003Munge f of)).matched = false :=
        fun x hx => hall x (by simp [hx])
      simp only [tfLoop, hg, Bool.false_eq_true, if_false]
      exact ih hrest

/-- C3 witness: a declining builder followed by a matching builder that
fails construction yields that construction error even though a later
builder would have succeeded; a list of declining builders yields the
no-printers-matched error. -/
theorem templateFlags_first_builder_wins_witness :
    tfToPrinter ⟨some true, some "x", ""⟩ "go-template=x.y"
        [builderDecline, builderMatchFail, builderMatchJson]
      = .error (.constructionError "bad template")
    ∧ tfToPrinter ⟨some true, some "x", ""⟩ "go-template=x.y" [builderDecline]
      = .error .noPrintersMatchedFlags :=
  ⟨templateFlags_first_builder_wins.1 ⟨some true, some "x", ""⟩ "go-template=x.y"
      [builderDecline] [builderMatchJson] builderMatchFail
      (by intro g hg; rw [List.mem_singleton] at hg; subst hg; rfl) rfl,
   templateFlags_first_builder_wins.2 ⟨some true, some "x", ""⟩ "go-template=x.y"
      [builderDecline]
      (by intro g hg; rw [List.mem_singleton] at hg; subst hg; rfl)⟩

/-- C1: in a watch, the first streamed event is dropped for a
single-object (non-list) target and every later event renders once in
delivery order after the one initial-snapshot render, while a
list-target watch renders all fetched items and then every streamed
event with no suppression. -/
theorem watch_first_event_suppression (g : GVK) (convert : Obj → Except String Obj)
    (printObj : Obj → Option String) (hp : ∀ o, printObj o = none) (o : Obj)
    (rv : String) (items : List Obj) (events : List WatchEvent) :
    (watchRun [g] (.single o) false events convert printObj).renders
      = attemptToConvertToInternal convert o
          :: (events.drop 1).map (fun e => attemptToConvertToInternal convert e.obj)
    ∧ (watchRun [g] (.list rv items) false events convert printObj).renders
      = items.map (attemptToConvertToInternal convert)
          ++ events.map (fun e => attemptToConvertToInternal convert e.obj) := by
  constructor
  · rw [watchRun_ok g [] (by simp) (.single o) false events convert printObj hp]
    simp [WatchTarget.snapshotObjs, WatchTarget.isListTarget, keptEventObjs,
      List.map_map, Function.comp_def]
  · rw [watchRun_ok g [] (by simp) (.list rv items) false events convert printObj hp]
    simp [WatchTarget.snapshotObjs, WatchTarget.isListTarget, keptEventObjs,
      List.map_map, Function.comp_def]

/-- C1 witness: a single-object watch streaming three events renders
the snapshot plus the last two events (1 + 2 renders); a list watch of
two fetched items streaming two events renders all four. -/
theorem watch_first_event_suppression_witness :
    (watchRun [⟨"", "v1", "Pod"⟩] (.single 7) false [⟨1⟩, ⟨2⟩, ⟨3⟩]
        (fun o => .ok o) (fun _ => none)).renders = [7, 2, 3]
    ∧ (watchRun [⟨"", "v1", "Pod"⟩] (.list "5" [10, 11]) false [⟨1⟩, ⟨2⟩]
        (fun o => .ok o) (fun _ => none)).renders = [10, 11, 1, 2] := by
  have h1 := (watch_first_event_suppression ⟨"", "v1", "Pod"⟩ (fun o => .ok o)
      (fun _ => none) (fun _ => rfl) 7 "5" [10, 11] [⟨1⟩, ⟨2⟩, ⟨3⟩]).1
  have h2 := (watch_first_event_suppression ⟨"", "v1", "Pod"⟩ (fun o => .ok o)
      (fun _ => none) (fun _ => rfl) 7 "5" [10, 11] [⟨1⟩, ⟨2⟩]).2
  exact ⟨by rw [h1]; rfl, by rw [h2]; rfl⟩

/-- C8: at watch start, fetched infos carrying more than one distinct
GroupVersionKind produce a fatal validation error before any render or
subscription; infos all sharing one GroupVersionKind (for example
repeated chunks) let the watch proceed without error. -/
theorem watch_gvk_validation :
    (∀ (g0 : GVK) (rest : List GVK) (target : WatchTarget) (wo : Bool)
        (events : List WatchEvent) (convert : Obj → Except String Obj)
        (printObj : Obj → Option String),
        (∃ g ∈ g0 :: rest, g ≠ g0) →
        (watchRun (g0 :: rest) target wo events convert printObj).fatalErr
            = some (.multipleGVKs (1 + (g0 :: rest).countP (fun g => decide (g ≠ g0))))
        ∧ (watchRun (g0 :: rest) target wo events convert printObj).renders = []
        ∧ (watchRun (g0 :: rest) target wo events convert printObj).watchRV = none)
    ∧ (∀ (g0 : GVK) (rest : List GVK) (target : WatchTarget) (wo : Bool)
        (events : List WatchEvent) (convert : Obj → Except String Obj)
        (printObj : Obj → Option String),
        (∀ g ∈ g0 :: rest, g = g0) → (∀ o, printObj o = none) →
        (watchRun (g0 :: rest) target wo events convert printObj).fatalErr = none
        ∧ (watchRun (g0 :: rest) target wo events convert printObj).watchRV
            = some target.resourceVersionCursor) := by
  constructor
  · intro g0 rest target wo events convert printObj hex
    obtain ⟨g, hg, hne⟩ := hex
    have hrest : g ∈ rest := by
      rcases List.mem_cons.mp hg with rfl | h2
      · exact absurd rfl hne
      · exact h2
    have hlen : 1 < (g0 :: rest).length := by
      cases rest with
      | nil => cases hrest
      | cons a as => simp
    have hpos : 0 < (g0 :: rest).countP (fun g => decide (g ≠ g0)) := by
      rw [List.countP_pos_iff]
      exact ⟨g, hg, by simp [hne]⟩
    have hcond : 1 < (g0 :: rest).length
        ∧ 1 < 1 + (g0 :: rest).countP (fun g => decide (g ≠ g0)) := ⟨hlen, by omega⟩
    simp only [watchRun]
    rw [if_pos hcond]
    exact ⟨rfl, rfl, rfl⟩
  · intro g0 rest target wo events convert printObj hall hp
    rw [watchRun_ok g0 rest hall target wo events convert printObj hp]
    exact ⟨rfl, rfl⟩

/-- C8 witness: a Pod info next to a Service info is rejected with no
render and no subscription; two Pod chunks pass validation and the
subscription opens at cursor "0". -/
theorem watch_gvk_validation_witness :
    (watchRun [⟨"", "v1", "Pod"⟩, ⟨"", "v1", "Service"⟩] (.single 7) false []
        (fun o => .ok o) (fun _ => none)).fatalErr = some (.multipleGVKs 2)
    ∧ (watchRun [⟨"", "v1", "Pod"⟩, ⟨"", "v1", "Service"⟩] (.single 7) false []
        (fun o => .ok o) (fun _ => none)).renders = []
    ∧ (watchRun [⟨"", "v1", "Pod"⟩, ⟨"", "v1", "Service"⟩] (.single 7) false []
        (fun o => .ok o) (fun _ => none)).watchRV = none
    ∧ (watchRun [⟨"", "v1", "Pod"⟩, ⟨"", "v1", "Pod"⟩] (.single 7) false []
        (fun o => .ok o) (fun _ => none)).fatalErr = none
    ∧ (watchRun [⟨"", "v1", "Pod"⟩, ⟨"", "v1", "Pod"⟩] (.single 7) false []
        (fun o => .ok o) (fun _ => none)).watchRV = some "0" := by
  have h1 := watch_gvk_validation.1 ⟨"", "v1", "Pod"⟩ [⟨"", "v1", "Service"⟩]
      (.single 7) false [] (fun o => .ok o) (fun _ => none) (by decide)
  have h2 := watch_gvk_validation.2 ⟨"", "v1", "Pod"⟩ [⟨"", "v1", "Pod"⟩]
      (.single 7) false [] (fun o => .ok o) (fun _ => none) (by decide) (fun _ => rfl)
  exact ⟨by rw [h1.1]; rfl, h1.2.1, h1.2.2, h2.1, by rw [h2.2]; rfl⟩

/-- C9: every object the watch renders goes through the conversion
attempt first, and a converter failure degrades to the original object
instead of aborting the render or the loop. -/
theorem watch_conversion_fallback (convert : Obj → Except String Obj) :
    (∀ (o : Obj) (e : String), convert o = .error e →
        attemptToConvertToInternal convert o = o)
    ∧ (∀ (o v : Obj), convert o = .ok v → attemptToConvertToInternal convert o = v)
    ∧ (∀ (g : GVK) (target : WatchTarget) (events : List WatchEvent)
          (printObj : Obj → Option String), (∀ o, printObj o = none) →
        (watchRun [g] target false events convert printObj).renders
          = (target.snapshotObjs ++ keptEventObjs target.isListTarget events).map
              (attemptToConvertToInternal convert)
        ∧ (watchRun [g] target false events convert printObj).fatalErr = none) := by
  refine ⟨?_, ?_, ?_⟩
  · intro o e h
    simp [attemptToConvertToInternal, h]
  · intro o v h
    simp [attemptToConvertToInternal, h]
  · intro g target events printObj hp
    rw [watchRun_ok g [] (by simp) target false events convert printObj hp]
    simp

/-- C9 witness: with a converter that always fails, the original
objects are rendered and the watch completes without a fatal error; a
succeeding converter substitutes its result. -/
theorem watch_conversion_fallback_witness :
    attemptToConvertToInternal (fun _ => .error "cannot convert") 5 = 5
    ∧ attemptToConvertToInternal (fun o => .ok (o + 1)) 5 = 6
    ∧ (watchRun [⟨"", "v1", "Pod"⟩] (.list "9" [4]) false [⟨8⟩]
        (fun _ => .error "cannot convert") (fun _ => none)).renders = [4, 8]
    ∧ (watchRun [⟨"", "v1", "Pod"⟩] (.list "9" [4]) false [⟨8⟩]
        (fun _ => .error "cannot convert") (fun _ => none)).fatalErr = none := by
  have h1 := (watch_conversion_fallback (fun _ => .error "cannot convert")).1
      5 "cannot convert" rfl
  have h2 := (watch_conversion_fallback (fun o => .ok (o + 1))).2.1 5 6 rfl
  have h3 := (watch_conversion_fallback (fun _ => .error "cannot convert")).2.2
      ⟨"", "v1", "Pod"⟩ (.list "9" [4]) [⟨8⟩] (fun _ => none) (fun _ => rfl)
  exact ⟨h1, h2, by rw [h3.1]; rfl, h3.2⟩

/-- C10: with watch-only set on a single-object target, the first
streamed event is still suppressed even though no initial snapshot was
rendered, so n streamed events yield exactly n - 1 renders. -/
theorem watchonly_first_event_still_suppressed (g : GVK) (o : Obj)
    (convert : Obj → Except String Obj) (printObj : Obj → Option String)
    (hp : ∀ o, printObj o = none) (events : List WatchEvent) :
    (watchRun [g] (.single o) true events convert printObj).renders
      = (events.drop 1).map (fun e => attemptToConvertToInternal convert e.obj)
    ∧ (watchRun [g] (.single o) true events convert printObj).renders.length
      = events.length - 1 := by
  have h := watchRun_ok g [] (by simp) (.single o) true events convert printObj hp
  constructor
  · rw [h]
    simp [keptEventObjs, WatchTarget.isListTarget, List.map_map, Function.comp_def]
  · rw [h]
    simp [keptEventObjs, WatchTarget.isListTarget]

/-- C10 witness: a watch-only single-object session streaming three
events renders only the last two. -/
theorem watchonly_first_event_still_suppressed_witness :
    (watchRun [⟨"", "v1", "Pod"⟩] (.single 7) true [⟨1⟩, ⟨2⟩, ⟨3⟩]
        (fun o => .ok o) (fun _ => none)).renders = [2, 3]
    ∧ (watchRun [⟨"", "v1", "Pod"⟩] (.single 7) true [⟨1⟩, ⟨2⟩, ⟨3⟩]
        (fun o => .ok o) (fun _ => none)).renders.length = 2 := by
  have h := watchonly_first_event_still_suppressed ⟨"", "v1", "Pod"⟩ 7 (fun o => .ok o)
      (fun _ => none) (fun _ => rfl) [⟨1⟩, ⟨2⟩, ⟨3⟩]
  exact ⟨by rw [h.1]; rfl, by rw [h.2]; rfl⟩

end KubectlGet
